import Mathlib

/-!
Verification development for the remote parameter marshaling subsystem
(`parameters.py` and the logging decorator of `misc.py`).

The Python source is shallowly embedded: pure helpers become Lean
functions, the store's mutable visibility flags become an explicit state
record, remote commands become an explicit command trace interpreted by a
small model of the remote engine, and Python exceptions become `Except`.
Numeric values are modelled as exact rationals.
-/

namespace PyMapdl

/-- Python exception kinds raised by the embedded code paths. -/
inductive PyExc where
  | typeError (msg : String)
  | valueError (msg : String)
  | indexError (msg : String)
  | keyError (msg : String)
  | runtimeError (msg : String)
deriving DecidableEq, Repr

/-- A Python scalar value: a float (modelled exactly as a rational) or a string. -/
inductive PVal where
  | num (q : ℚ)
  | str (s : String)
deriving DecidableEq, Repr

/-- Record stored per parameter by `interp_star_status`: the `"type"` field,
and the optional `"value"` / `"shape"` entries of the Python dict. -/
structure PInfo where
  ptype : String
  value : Option PVal := none
  shape : Option (ℤ × ℤ × ℤ) := none
deriving DecidableEq, Repr

/-- Split a character list at every separator satisfying `p`; `acc` holds the
(reversed) characters of the current piece. -/
def splitChars (p : Char → Bool) : List Char → List Char → List (List Char)
  | [], acc => [acc.reverse]
  | c :: t, acc =>
    if p c then acc.reverse :: splitChars p t [] else splitChars p t (c :: acc)

/-- Split a string into lines, as `str.splitlines` over newline characters. -/
def pyLines (s : String) : List String :=
  (splitChars (fun c => c = '\n') s.toList []).map String.mk

/-- Whitespace tokenisation, as Python `str.split()` with no argument:
split on whitespace runs and drop empty tokens. -/
def pyTokens (s : String) : List String :=
  ((splitChars Char.isWhitespace s.toList []).filter (fun t => !t.isEmpty)).map
    String.mk

/-- Does `pat` occur in `s` starting at character position `i`? -/
def occursAt (pat s : List Char) (i : ℕ) : Bool :=
  pat.isPrefixOf (s.drop i)

/-- All character positions of `s` at which `pat` occurs. -/
def findIndices (s pat : String) : List ℕ :=
  (List.range (s.length + 1)).filter (occursAt pat.toList s.toList)

/-- Python `str.find`: position of the first occurrence, `none` for Python's -1. -/
def strFind (s pat : String) : Option ℕ :=
  (findIndices s pat).head?

/-- Python `str.rfind`: position of the last occurrence, `none` for Python's -1. -/
def strRFind (s pat : String) : Option ℕ :=
  (findIndices s pat).getLast?

/-- Python `pat in s` substring containment. -/
def containsSub (s pat : String) : Bool :=
  !(findIndices s pat).isEmpty

/-- Python slice `s[n:]` over character positions. -/
def pyDropChars (s : String) (n : ℕ) : String :=
  String.mk (s.toList.drop n)

/-- Python slice `s[-n:]` (for `n > 0`): the last `n` characters, or all of `s`
when it is shorter than `n`. -/
def lastN (s : String) (n : ℕ) : String :=
  String.mk (s.toList.drop (s.length - n))

/-- Python slice `s[:-n]` (for `n > 0`): all but the last `n` characters. -/
def dropLastN (s : String) (n : ℕ) : String :=
  String.mk (s.toList.take (s.length - n))

/-- Numeric value of a list of decimal digit characters. -/
def digitsVal (l : List Char) : ℕ :=
  l.foldl (fun a c => a * 10 + (c.toNat - 48)) 0

/-- Exponent part of a Python float literal: optional sign then digits. -/
def parseExpPart (sgn mant : ℚ) (t : List Char) : Option ℚ :=
  let p : ℤ × List Char :=
    match t with
    | '+' :: r => (1, r)
    | '-' :: r => (-1, r)
    | _ => (1, t)
  let ed := p.2.takeWhile Char.isDigit
  let rest := p.2.dropWhile Char.isDigit
  if ed.isEmpty || !rest.isEmpty then none
  else some (sgn * mant * (10 : ℚ) ^ (p.1 * (digitsVal ed : ℤ)))

/-- Python `float(s)` on a whitespace-free token, modelled exactly over ℚ:
optional sign, digits with an optional fractional part (at least one digit
overall), and an optional decimal exponent.  `none` models `ValueError`. -/
def parseFloatQ (s : String) : Option ℚ :=
  let cs := s.toList
  let p0 : ℚ × List Char :=
    match cs with
    | '+' :: t => (1, t)
    | '-' :: t => (-1, t)
    | _ => (1, cs)
  let ip := p0.2.takeWhile Char.isDigit
  let cs1 := p0.2.dropWhile Char.isDigit
  let p1 : List Char × List Char :=
    match cs1 with
    | '.' :: t => (t.takeWhile Char.isDigit, t.dropWhile Char.isDigit)
    | _ => ([], cs1)
  if ip.isEmpty && p1.1.isEmpty then none
  else
    let mant : ℚ := (digitsVal (ip ++ p1.1) : ℚ) / ((10 : ℚ) ^ p1.1.length)
    match p1.2 with
    | [] => some (p0.1 * mant)
    | 'e' :: t => parseExpPart p0.1 mant t
    | 'E' :: t => parseExpPart p0.1 mant t
    | _ => none

/-- Python `int(s)` on a whitespace-free token: optional sign then digits only.
`none` models `ValueError`. -/
def parsePyInt (s : String) : Option ℤ :=
  let p : ℤ × List Char :=
    match s.toList with
    | '+' :: t => (1, t)
    | '-' :: t => (-1, t)
    | _ => (1, s.toList)
  if p.2.isEmpty || !(p.2.all Char.isDigit) then none
  else some (p.1 * (digitsVal p.2 : ℤ))

/-- Python dict insertion `d[k] = v` for an association list kept in
insertion order: overwrite in place when the key exists, else append. -/
def upsert {α : Type} (ps : List (String × α)) (k : String) (v : α) :
    List (String × α) :=
  if ps.any (fun p => p.1 == k) then
    ps.map (fun p => if p.1 == k then (k, v) else p)
  else ps ++ [(k, v)]

/-- Python dict lookup returning `none` when the key is absent. -/
def lookupParm {α : Type} (ps : List (String × α)) (k : String) : Option α :=
  (ps.find? (fun p => p.1 == k)).map (fun p => p.2)

/-- One iteration of the line loop of `interp_star_status`
(`parameters.py` lines 647-667): dispatch on the whitespace-token count. -/
def processLine (params : List (String × PInfo)) (line : String) :
    Except PyExc (List (String × PInfo)) :=
  let items := pyTokens line
  match items with
  | [] => .ok params
  | name :: _ =>
    if items.length = 2 then
      let t1 := items.getD 1 ""
      if lastN t1 9 = "CHARACTER" then
        .ok (upsert params name ⟨"CHARACTER", some (.str (dropLastN t1 9)), none⟩)
      else .ok params
    else if items.length = 3 then
      let t1 := items.getD 1 ""
      let t2 := items.getD 2 ""
      if t2 = "SCALAR" then
        match parseFloatQ t1 with
        | some v => .ok (upsert params name ⟨t2, some (.num v), none⟩)
        | none => .error (.valueError "could not convert string to float")
      else .ok (upsert params name ⟨t2, some (.str t1), none⟩)
    else if items.length = 5 then
      match parsePyInt (items.getD 2 ""), parsePyInt (items.getD 3 ""),
          parsePyInt (items.getD 4 "") with
      | some a, some b, some c =>
          .ok (upsert params name ⟨items.getD 1 "", none, some (a, b, c)⟩)
      | _, _, _ => .error (.valueError "invalid literal for int")
    else .ok params

/-- The fixed NAME/VALUE header located by `interp_star_status`. -/
def headerNAME : String := "NAME                              VALUE"

/-- `interp_star_status` (`parameters.py` lines 632-668): locate the header,
skip 80 characters past its start, and fold the line loop over the rest.
A raised `ValueError` from `float`/`int` surfaces as `.error`. -/
def interp_star_status (status : String) : Except PyExc (List (String × PInfo)) :=
  let st : ℤ :=
    match strFind status headerNAME with
    | some i => (i : ℤ)
    | none => -1
  let tail := pyDropChars status (st + 80).toNat
  (pyLines tail).foldlM processLine []

/-- 41 filler characters padding the 39-character header to the 80 characters
skipped by `interp_star_status`. -/
def pad41 : String := String.mk (List.replicate 41 ' ')

/-- Sample `*STATUS` listing with one scalar, one character and one array record. -/
def sampleListing : String :=
  headerNAME ++ pad41 ++
    "\nPARM_FLOAT 20.0 SCALAR\nPARM_STR stringCHARACTER\nARR ARRAY 3 1 1"

/-- Listing whose record block holds a 3-token SCALAR line with a non-numeric
value token, on which Python's `float(items[1])` raises `ValueError`. -/
def malformedScalarListing : String :=
  headerNAME ++ pad41 ++ "\nX abc SCALAR"

set_option maxRecDepth 10000 in
/-- C4 counterexample: `interp_star_status` is claimed never to raise, yet on a
listing whose record block holds the 3-token line `"X abc SCALAR"` the call
`float("abc")` raises `ValueError` instead of dropping the line. -/
theorem C4_counterexample_malformed_scalar_raises :
    interp_star_status malformedScalarListing =
      .error (.valueError "could not convert string to float") := by
  with_unfolding_all rfl

/-- C4 (amended): every line whose whitespace-token count is other than 2, 3,
or 5 is silently skipped by the line loop of `interp_star_status`; however the
parser can still raise, since a 3-token SCALAR line with a non-float value
token (or a 5-token line with non-integer dimensions) raises `ValueError`
rather than being dropped. -/
theorem C4_other_token_counts_skipped (params : List (String × PInfo))
    (line : String) (h2 : (pyTokens line).length ≠ 2)
    (h3 : (pyTokens line).length ≠ 3) (h5 : (pyTokens line).length ≠ 5) :
    processLine params line = .ok params := by
  unfold processLine
  cases h : pyTokens line with
  | nil => simp
  | cons name rest =>
    rw [h] at h2 h3 h5
    simp only [if_neg h2, if_neg h3, if_neg h5]

/-- Witness for C4 (amended) at the concrete 4-token line `"a b c d"`. -/
theorem C4_other_token_counts_skipped_witness :
    processLine [] "a b c d" = .ok [] :=
  C4_other_token_counts_skipped [] "a b c d" (by decide) (by decide) (by decide)

set_option maxRecDepth 10000 in
/-- C8: on the sample listing whose record block is the three lines
`"PARM_FLOAT 20.0 SCALAR"`, `"PARM_STR stringCHARACTER"` and
`"ARR ARRAY 3 1 1"`, `interp_star_status` returns exactly the mapping
PARM_FLOAT ↦ scalar 20.0, PARM_STR ↦ character "string",
ARR ↦ array of shape (3, 1, 1). -/
theorem C8_sample_listing_parses_as_claimed :
    interp_star_status sampleListing =
      .ok [("PARM_FLOAT", ⟨"SCALAR", some (.num 20), none⟩),
           ("PARM_STR", ⟨"CHARACTER", some (.str "string"), none⟩),
           ("ARR", ⟨"ARRAY", none, some (3, 1, 1)⟩)] := by
  with_unfolding_all rfl

/-- A Python attribute holding `None` or a bool (the scope object's stored
fields start out as `None`; `__exit__` copies them back verbatim). -/
abbrev PyOptBool := Option Bool

/-- Truthiness of a `None`-or-bool value, as used by `if self.show_...:`. -/
def truthy (b : PyOptBool) : Bool := b.getD false

/-- Mutable state of one `Parameters` store: its two visibility flags and the
two stored fields of its single shared `_full_parameter_output` scope object
(created once in `__init__`, line 135). -/
structure ParametersState where
  show_leading_underscore_parameters : PyOptBool
  show_trailing_underscore_parameters : PyOptBool
  scope_show_leading : PyOptBool
  scope_show_trailing : PyOptBool
deriving DecidableEq, Repr

/-- State right after `Parameters.__init__`: both flags `False`, both stored
scope fields `None`. -/
def initParametersState : ParametersState :=
  ⟨some false, some false, none, none⟩

/-- `_full_parameter_output.__enter__` (lines 609-620): store the current
flags in the scope object, then force both flags to `True`. -/
def scopeEnter (s : ParametersState) : ParametersState :=
  { s with
    scope_show_leading := s.show_leading_underscore_parameters,
    scope_show_trailing := s.show_trailing_underscore_parameters,
    show_leading_underscore_parameters := some true,
    show_trailing_underscore_parameters := some true }

/-- `_full_parameter_output.__exit__` (lines 622-629): copy the stored fields
back into the parent's flags. -/
def scopeExit (s : ParametersState) : ParametersState :=
  { s with
    show_leading_underscore_parameters := s.scope_show_leading,
    show_trailing_underscore_parameters := s.scope_show_trailing }

/-- Python `str.upper()` (ASCII). -/
def pyUpper (s : String) : String :=
  String.mk (s.toList.map Char.toUpper)

/-- Python `dict.update(other)`: insert every entry of `other` in order. -/
def updateDict (base other : List (String × PInfo)) : List (String × PInfo) :=
  other.foldl (fun acc p => upsert acc p.1 p.2) base

/-- The `_parm` property (lines 330-344), given the raw `*STATUS` response
texts: `stat` for `starstatus()`, `statLead` for `starstatus("_PRM")` and
`statTrail` for `starstatus("PRM_")`.  The extra listings are requested and
merged only when the corresponding flag is truthy. -/
def parm_property (stat statLead statTrail : String) (lead trail : PyOptBool) :
    Except PyExc (List (String × PInfo)) := do
  let params ← interp_star_status stat
  let params ←
    if truthy lead then do
      let underscored ← interp_star_status statLead
      pure (updateDict params underscored)
    else pure params
  if truthy trail then do
    let trailing ← interp_star_status statTrail
    pure (updateDict params trailing)
  else pure params

/-- The key argument of `__getitem__`: a Python string or any other object. -/
inductive PyKey where
  | pystr (s : String)
  | nonString
deriving DecidableEq, Repr

/-- An array value returned by `_get_parameter_array`: final shape and the
flat element list. -/
abbrev ArrVal := List ℕ × List ℚ

/-- A value returned by `__getitem__`. -/
inductive GetVal where
  | scalar (v : PVal)
  | array (a : ArrVal)
deriving DecidableEq, Repr

/-- Decidable equality for `Except`, needed to evaluate outcomes by `decide`. -/
instance {ε α : Type} [DecidableEq ε] [DecidableEq α] :
    DecidableEq (Except ε α) := fun x y =>
  match x, y with
  | .ok a, .ok b =>
    if h : a = b then .isTrue (by rw [h]) else
      .isFalse (fun hh => by cases hh; exact h rfl)
  | .ok _, .error _ => .isFalse (fun hh => by cases hh)
  | .error _, .ok _ => .isFalse (fun hh => by cases hh)
  | .error e, .error f =>
    if h : e = f then .isTrue (by rw [h]) else
      .isFalse (fun hh => by cases hh; exact h rfl)

/-- Instrumented outcome of `__getitem__`: the returned value or raised
exception, the final store state, and how many times `_get_parameter_array`
was invoked. -/
structure GetOutcome where
  result : Except PyExc GetVal
  state : ParametersState
  fetchCalls : ℕ
deriving DecidableEq, Repr

/-- `Parameters.__getitem__` (lines 364-389).  `fetch n` is the outcome of the
`n`-th call of `self._get_parameter_array(key, parm["shape"])` — successive
attempts may differ because the remote response stream is re-read.  The
`with self.full_parameters_output` block wraps only the `self._parm` read;
its `__exit__` runs both when `_parm` returns and when it raises.  The
unknown-key `IndexError` is raised after the scope has exited. -/
def getitem (stat statLead statTrail : String)
    (fetch : ℕ → Except PyExc ArrVal) (s : ParametersState) (key : PyKey) :
    GetOutcome :=
  match key with
  | .nonString => ⟨.error (.typeError "Parameter name must be a string"), s, 0⟩
  | .pystr k0 =>
    match parm_property stat statLead statTrail
        (scopeEnter s).show_leading_underscore_parameters
        (scopeEnter s).show_trailing_underscore_parameters with
    | .error e => ⟨.error e, scopeExit (scopeEnter s), 0⟩
    | .ok parameters =>
      match lookupParm parameters (pyUpper k0) with
      | none =>
        ⟨.error (.indexError "not a valid parameter_name"),
          scopeExit (scopeEnter s), 0⟩
      | some parm =>
        if parm.ptype = "ARRAY" ∨ parm.ptype = "TABLE" then
          match fetch 0 with
          | .ok v => ⟨.ok (.array v), scopeExit (scopeEnter s), 1⟩
          | .error (.valueError _) =>
            match fetch 1 with
            | .ok v => ⟨.ok (.array v), scopeExit (scopeEnter s), 2⟩
            | .error e => ⟨.error e, scopeExit (scopeEnter s), 2⟩
          | .error e => ⟨.error e, scopeExit (scopeEnter s), 1⟩
        else
          match parm.value with
          | some v => ⟨.ok (.scalar v), scopeExit (scopeEnter s), 0⟩
          | none => ⟨.error (.keyError "value"), scopeExit (scopeEnter s), 0⟩

/-- C3: a single (non-nested) full-visibility scoped lookup via `__getitem__`
leaves both visibility flags exactly as they were before the lookup, on every
exit path: non-string key, `_parm` failure, unknown-parameter `IndexError`,
scalar return, and array fetch (successful or raising). -/
theorem C3_visibility_flags_restored_on_all_getitem_paths
    (stat statLead statTrail : String) (fetch : ℕ → Except PyExc ArrVal)
    (s : ParametersState) (key : PyKey) :
    (getitem stat statLead statTrail fetch s key).state.show_leading_underscore_parameters
        = s.show_leading_underscore_parameters ∧
    (getitem stat statLead statTrail fetch s key).state.show_trailing_underscore_parameters
        = s.show_trailing_underscore_parameters := by
  cases key with
  | nonString => exact ⟨rfl, rfl⟩
  | pystr k0 =>
    unfold getitem
    repeat' split
    all_goals exact ⟨rfl, rfl⟩

/-- Sequential nested use of the shared `full_parameters_output` scope object:
enter, enter again, exit, exit. -/
def nestedScopeUse (s : ParametersState) : ParametersState :=
  scopeExit (scopeExit (scopeEnter (scopeEnter s)))

/-- C9 counterexample: nesting the full-visibility scope on a single thread
does not restore the pre-outermost flag values, because the inner `__enter__`
overwrites the snapshot stored on the one shared scope object.  Starting from
the `__init__` state (both flags `False`), both flags end up `True`. -/
theorem C9_counterexample_nested_scope_not_restored :
    ¬ ((nestedScopeUse initParametersState).show_leading_underscore_parameters
          = initParametersState.show_leading_underscore_parameters ∧
       (nestedScopeUse initParametersState).show_trailing_underscore_parameters
          = initParametersState.show_trailing_underscore_parameters) := by
  decide

/-- C9 (amended): only a non-nested scope restores the pre-entry flag values.
Sequential nesting on one thread leaves both flags at `True` (the snapshot
taken at the innermost entry), because the single shared scope object holds
one snapshot, not a stack. -/
theorem C9_nested_scope_leaves_flags_forced (s : ParametersState) :
    (scopeExit (scopeEnter s)).show_leading_underscore_parameters
        = s.show_leading_underscore_parameters ∧
    (scopeExit (scopeEnter s)).show_trailing_underscore_parameters
        = s.show_trailing_underscore_parameters ∧
    (nestedScopeUse s).show_leading_underscore_parameters = some true ∧
    (nestedScopeUse s).show_trailing_underscore_parameters = some true :=
  ⟨rfl, rfl, rfl, rfl⟩

/-- C7: when `__getitem__` resolves the key to an ARRAY or TABLE parameter,
a successful first array fetch is returned with no retry (one call); a
`ValueError` on the first fetch triggers exactly one retry whose outcome —
success or any error — is returned as-is (two calls); any non-`ValueError`
failure of the first fetch propagates without retry (one call). -/
theorem C7_array_fetch_single_retry (stat sl st2 : String)
    (fetch : ℕ → Except PyExc ArrVal) (s : ParametersState) (k0 : String)
    (ps : List (String × PInfo)) (info : PInfo)
    (hp : parm_property stat sl st2 (some true) (some true) = .ok ps)
    (hl : lookupParm ps (pyUpper k0) = some info)
    (ht : info.ptype = "ARRAY" ∨ info.ptype = "TABLE") :
    (∀ v, fetch 0 = .ok v →
        (getitem stat sl st2 fetch s (.pystr k0)).result = .ok (.array v) ∧
        (getitem stat sl st2 fetch s (.pystr k0)).fetchCalls = 1) ∧
    (∀ m, fetch 0 = .error (.valueError m) →
        (getitem stat sl st2 fetch s (.pystr k0)).fetchCalls = 2 ∧
        (getitem stat sl st2 fetch s (.pystr k0)).result = (fetch 1).map GetVal.array) ∧
    (∀ e, fetch 0 = .error e → (∀ m, e ≠ PyExc.valueError m) →
        (getitem stat sl st2 fetch s (.pystr k0)).result = .error e ∧
        (getitem stat sl st2 fetch s (.pystr k0)).fetchCalls = 1) := by
  unfold getitem
  simp only [scopeEnter, hp, hl, if_pos ht]
  refine ⟨fun v hv => ?_, fun m hm => ?_, fun e he hne => ?_⟩
  · rw [hv]; exact ⟨rfl, rfl⟩
  · rw [hm]
    cases h1 : fetch 1 with
    | ok v => exact ⟨rfl, rfl⟩
    | error e => exact ⟨rfl, rfl⟩
  · rw [he]
    cases e with
    | valueError m => exact absurd rfl (hne m)
    | typeError m => exact ⟨rfl, rfl⟩
    | indexError m => exact ⟨rfl, rfl⟩
    | keyError m => exact ⟨rfl, rfl⟩
    | runtimeError m => exact ⟨rfl, rfl⟩

/-- Attempt-indexed fetch oracle whose first attempt raises `ValueError` and
whose second succeeds. -/
def fetchEx : ℕ → Except PyExc ArrVal := fun n =>
  if n = 0 then .error (.valueError "could not parse") else .ok ([3, 1], [1, 2, 3])

/-- The parameter map produced by `parm_property` on `sampleListing`. -/
def psEx : List (String × PInfo) :=
  [("PARM_FLOAT", ⟨"SCALAR", some (.num 20), none⟩),
   ("PARM_STR", ⟨"CHARACTER", some (.str "string"), none⟩),
   ("ARR", ⟨"ARRAY", none, some (3, 1, 1)⟩)]

set_option maxRecDepth 10000 in
/-- Witness for C7: fetching `"arr"` with a first attempt that raises
`ValueError` performs exactly two fetch calls. -/
theorem C7_array_fetch_single_retry_witness :
    (getitem sampleListing sampleListing sampleListing fetchEx
        initParametersState (.pystr "arr")).fetchCalls = 2 :=
  ((C7_array_fetch_single_retry sampleListing sampleListing sampleListing
      fetchEx initParametersState "arr" psEx ⟨"ARRAY", none, some (3, 1, 1)⟩
      (by with_unfolding_all rfl) (by with_unfolding_all rfl)
      (Or.inl rfl)).2.1 "could not parse" rfl).1

/-- A remote-side effect issued by the write paths: the MAPDL commands of
`_set_parameter`, `_set_array_chain` and `_set_parameter_array`, plus the
scratch-file write performed by `_write_numpy_array`. -/
inductive MCmd where
  | dim (name : String) (i j k : ℕ)
  | assignElem (name : String) (i j k : ℕ) (v : ℚ)
  | vread (name filename : String) (i j k : ℕ)
  | runFmt (fmt : String)
  | starsetDel (name : String)
  | starsetVal (name : String) (v : PVal)
  | writeFile (filename : String) (data : List ℚ)
deriving DecidableEq, Repr

/-- A NumPy array as passed to `_set_parameter_array`: its shape and its
elements in C (row-major) order.  A non-numeric element makes the whole
dtype non-numeric, as for `np.array` over a mixed list. -/
structure NDArray where
  dims : List ℕ
  data : List PVal
deriving DecidableEq, Repr

/-- `np.issubdtype(arr.dtype, np.number)`. -/
def NDArray.isNumeric (a : NDArray) : Bool :=
  a.data.all (fun v => match v with | .num _ => true | .str _ => false)

/-- The numeric elements in C order (only meaningful after `isNumeric`). -/
def NDArray.qdata (a : NDArray) : List ℚ :=
  a.data.map (fun v => match v with | .num q => q | .str _ => 0)

/-- `arr.ndim`. -/
def NDArray.ndim (a : NDArray) : ℕ := a.dims.length

/-- `arr.size`. -/
def NDArray.size (a : NDArray) : ℕ := a.dims.prod

/-- C-order flat index of `(i, j, k)` in an array of inner dimensions `J, K`. -/
def enc (J K i j k : ℕ) : ℕ := i * (J * K) + j * K + k

/-- Element `(i, j, k)` of a C-ordered flat list (`arr[i, j, k]`). -/
def getC (d : List ℚ) (J K i j k : ℕ) : ℚ := d.getD (enc J K i j k) 0

/-- Iteration order of the triple `for i / for j / for k` loop of
`_set_array_chain` (lines 578-582). -/
def cIndices (I J K : ℕ) : List (ℕ × ℕ × ℕ) :=
  (List.range I).flatMap (fun i =>
    (List.range J).flatMap (fun j =>
      (List.range K).map (fun k => (i, j, k))))

/-- `_set_array_chain` (lines 561-585): declare the dimensions, then emit one
1-based element assignment per entry in loop order.  (The `expand_dims`
calls only pad the shape to rank 3; the C-order flat data is unchanged.) -/
def set_array_chain (name : String) (d : List ℚ) (idim jdim kdim : ℕ) :
    List MCmd :=
  MCmd.dim name idim jdim kdim ::
    (cIndices idim jdim kdim).map (fun t =>
      MCmd.assignElem name (t.1 + 1) (t.2.1 + 1) (t.2.2 + 1)
        (getC d jdim kdim t.1 t.2.1 t.2.2))

/-- `arr.ravel("F")` of a C-ordered buffer of shape `(I, J, K)`: the
column-major sequence written to the scratch file by `_write_numpy_array`. -/
def ravelF (I J K : ℕ) (d : List ℚ) : List ℚ :=
  (List.range (I * J * K)).map (fun m =>
    getC d J K (m % I) ((m / I) % J) (m / (I * J)))

/-- The file-based branch of `_set_parameter_array` (lines 551-559): write the
scratch file, declare dimensions, bulk-read it back with IJK ordering and the
fixed read format. -/
def set_array_file (name : String) (d : List ℚ) (idim jdim kdim : ℕ) :
    List MCmd :=
  [.writeFile "_tmp.dat" (ravelF idim jdim kdim d),
   .dim name idim jdim kdim,
   .vread name "_tmp.dat" idim jdim kdim,
   .runFmt "(1F20.12)"]

/-- `_set_parameter_array` (lines 480-559): validation in source order
(numeric dtype, rank at most 3, string name), uppercase the name, compute the
dimension triple, then dispatch on `arr.size < 1000` between the chain and
file strategies.  Validation failures issue no command. -/
def set_parameter_array (name : PyKey) (a : NDArray) :
    Except PyExc (List MCmd) :=
  if !a.isNumeric then
    .error (.typeError "Only numerical arrays or lists are supported")
  else if 3 < a.ndim then
    .error (.valueError "MAPDL VREAD only supports a arrays with a maximum of 3 dimensions.")
  else
    match name with
    | .nonString => .error (.typeError "name must be a string")
    | .pystr n0 =>
      let n := pyUpper n0
      let idim := a.dims.getD 0 0
      let jdim := if 2 ≤ a.ndim then a.dims.getD 1 1 else 1
      let kdim := if a.ndim = 3 then a.dims.getD 2 1 else 1
      if a.size < 1000 then .ok (set_array_chain n a.qdata idim jdim kdim)
      else .ok (set_array_file n a.qdata idim jdim kdim)

/-- The value argument of `__setitem__`. -/
inductive SetVal where
  | num (q : ℚ)
  | str (s : String)
  | arr (a : NDArray)
  | other
deriving DecidableEq, Repr

/-- `_set_parameter` (lines 401-434), given the current `_parm` map: validate
the value type, the name type and the name length; delete the prior value if
it exists as an ARRAY; then issue the `*SET` assignment.  The embedded-space
check on strings runs after the delete, so that error carries a partial
trace. -/
def set_parameter (parm : List (String × PInfo)) (name : PyKey)
    (value : SetVal) : Except PyExc Unit × List MCmd :=
  match value with
  | .arr _ => (.error (.typeError "Parameter must be either a float, int, or string"), [])
  | .other => (.error (.typeError "Parameter must be either a float, int, or string"), [])
  | _ =>
    match name with
    | .nonString => (.error (.typeError "name must be a string"), [])
    | .pystr n =>
      if 32 < n.length then
        (.error (.valueError "Length of name must be 32 characters or less"), [])
      else
        let del : List MCmd :=
          match lookupParm parm n with
          | some info => if info.ptype = "ARRAY" then [.starsetDel n] else []
          | none => []
        match value with
        | .str sv =>
          if containsSub sv " " then
            (.error (.valueError "Spaces not allowed in strings in MAPDL"), del)
          else (.ok (), del ++ [.starsetVal n (.str sv)])
        | .num q => (.ok (), del ++ [.starsetVal n (.num q)])
        | _ => (.error (.typeError "unreachable"), [])

/-- Modelled from the spec: `_MapdlCore._check_parameter_name` (called by
`__setitem__`, line 393) is not among the shown sources.  Per §3 and §4.4 a
name must be a string of at most 32 characters, start with a letter, contain
only letters, digits and underscores; reserved (leading-underscore-only)
names are rejected by the normal set path while fully-hidden names (leading
and trailing underscore) are allowed. -/
def check_parameter_name (key : PyKey) : Except PyExc Unit :=
  match key with
  | .nonString => .error (.typeError "Parameter name must be a string")
  | .pystr n =>
    if 32 < n.length then
      .error (.valueError "parameter name should be at most 32 characters")
    else
      match n.toList with
      | [] => .error (.valueError "parameter name may not be empty")
      | c :: _ =>
        if !(n.toList.all (fun ch => ch.isAlphanum || ch = '_')) then
          .error (.valueError "invalid characters in parameter name")
        else if c = '_' then
          if n.toList.getLast? = some '_' then .ok ()
          else .error (.valueError "leading underscore parameters are reserved")
        else if !c.isAlpha then
          .error (.valueError "parameter name must start with a letter")
        else .ok ()

/-- `__setitem__` (lines 391-399): check the name, then route array-like
values to `_set_parameter_array` and the rest to `_set_parameter`.  The
result pairs the outcome with the trace of issued remote effects. -/
def setitem_cmds (parm : List (String × PInfo)) (key : PyKey)
    (value : SetVal) : Except PyExc Unit × List MCmd :=
  match check_parameter_name key with
  | .error e => (.error e, [])
  | .ok _ =>
    match value with
    | .arr a =>
      match set_parameter_array key a with
      | .ok tr => (.ok (), tr)
      | .error e => (.error e, [])
    | v => set_parameter parm key v

/-- A remote array parameter: declared dimensions and C-ordered data. -/
structure RArr where
  idim : ℕ
  jdim : ℕ
  kdim : ℕ
  data : List ℚ
deriving DecidableEq, Repr

/-- Remote engine state observed by the array write/read paths: the named
array parameters and the session file space. -/
structure MState where
  arrays : List (String × RArr)
  files : List (String × List ℚ)
deriving DecidableEq, Repr

/-- Modelled from the spec: `*VREAD` with ordering "IJK" fills the target
array from the file sequence with the I index varying fastest, then J, then K
(§4.3, §6 `bulkRead`).  The result is stored in C order: C position `n`
decodes to `(a, b, c)` and receives file element `a + b·I + c·I·J`. -/
def vreadIJK (I J K : ℕ) (file : List ℚ) : List ℚ :=
  (List.range (I * J * K)).map (fun n =>
    file.getD ((n / (J * K)) + ((n / K) % J) * I + (n % K) * (I * J)) 0)

/-- Modelled from the spec: the remote engine semantics of the issued
effects (§6 collaborators `declareArray`, `assign`, `bulkRead`, `upload`).
`*DIM` allocates a zero-filled array of the declared shape; an element
assignment writes one 1-based `(i, j, k)` position; `*VREAD` fills the
declared shape from a file; a bare `*SET` deletes the parameter. -/
def applyCmd (st : MState) : MCmd → MState
  | .dim n i j k =>
    { st with arrays := upsert st.arrays n ⟨i, j, k, List.replicate (i * j * k) 0⟩ }
  | .assignElem n i j k v =>
    match lookupParm st.arrays n with
    | some a =>
      let a2 :=
        { a with data := a.data.set (enc a.jdim a.kdim (i - 1) (j - 1) (k - 1)) v }
      { st with arrays := upsert st.arrays n a2 }
    | none => st
  | .vread n f i j k =>
    match lookupParm st.files f with
    | some fd => { st with arrays := upsert st.arrays n ⟨i, j, k, vreadIJK i j k fd⟩ }
    | none => st
  | .writeFile f d => { st with files := upsert st.files f d }
  | .runFmt _ => st
  | .starsetDel n => { st with arrays := st.arrays.filter (fun p => !(p.1 == n)) }
  | .starsetVal _ _ => st

/-- Run a trace of effects against the remote state. -/
def runCmds (st : MState) (cs : List MCmd) : MState := cs.foldl applyCmd st

/-- Modelled from the spec: `MWRITE` with label "kji" emits the array
elements in C order — outer-to-inner dimensions (§4.2) — and at an accepted
field width every element renders exactly, so the parsed float list of the
accepted response is the array's C-ordered data. -/
def mwriteVals (st : MState) (name : String) : List ℚ :=
  match lookupParm st.arrays name with
  | some a => a.data
  | none => []

/-- The tail of `_get_parameter_array` (lines 470-478): reshape the parsed
flat list to the listing shape — a length mismatch is the `ValueError`
retried by `__getitem__` — and squeeze a trailing axis of extent 1. -/
def reshape_and_squeeze (vals : List ℚ) (shape : List ℕ) :
    Except PyExc (List ℕ × List ℚ) :=
  if vals.length = shape.prod then
    .ok (if shape.length = 3 && shape.getD 2 0 == 1 then shape.take 2 else shape,
         vals)
  else .error (.valueError "cannot reshape array")

/-- Value-level read path for a stored array parameter: parse the accepted
`MWRITE` response and reshape to the listing shape. -/
def get_parameter_array_vals (st : MState) (name : String) (shape : List ℕ) :
    Except PyExc (List ℕ × List ℚ) :=
  reshape_and_squeeze (mwriteVals st name) shape

theorem find?_map_upsert {α : Type} (n : String) (a : α) :
    ∀ (t : List (String × α)), t.any (fun p => p.1 == n) = true →
      (t.map (fun p => if p.1 == n then (n, a) else p)).find?
        (fun p => p.1 == n) = some (n, a) := by
  intro t
  induction t with
  | nil => simp
  | cons p ts ih =>
    intro h
    by_cases hp : p.1 == n
    · simp [List.find?, hp]
    · simp only [List.any_cons, hp, Bool.false_or] at h
      rw [List.map_cons, if_neg hp,
        List.find?_cons_of_neg _ (by simpa using hp), ih h]

theorem find?_none_of_any_false {α : Type} (n : String) :
    ∀ (t : List (String × α)), t.any (fun p => p.1 == n) = false →
      t.find? (fun p => p.1 == n) = none := by
  intro t
  induction t with
  | nil => simp
  | cons p ts ih =>
    intro h
    simp only [List.any_cons, Bool.or_eq_false_iff] at h
    simp [List.find?, h.1, ih h.2]

theorem lookupParm_upsert {α : Type} (l : List (String × α)) (n : String) (a : α) :
    lookupParm (upsert l n a) n = some a := by
  unfold upsert lookupParm
  by_cases h : l.any (fun p => p.1 == n)
  · rw [if_pos h, find?_map_upsert n a l h]
    rfl
  · rw [if_neg h, List.find?_append,
        find?_none_of_any_false n l (by rwa [Bool.not_eq_true] at h),
        List.find?_cons_of_pos _ (by simp)]
    rfl

theorem rangeMul (K : ℕ) : ∀ (J : ℕ),
    (List.range J).flatMap (fun j => (List.range K).map (fun k => j * K + k))
      = List.range (J * K) := by
  intro J
  induction J with
  | zero => simp
  | succ J ih =>
    rw [List.range_succ, List.flatMap_append, ih, Nat.succ_mul, List.range_add]
    simp

theorem flatMap_map_const_add (C J K : ℕ) :
    (List.range J).flatMap (fun j => (List.range K).map (fun k => C + (j * K + k)))
      = (List.range (J * K)).map (fun m => C + m) := by
  rw [← rangeMul K J, List.map_flatMap]
  simp [List.map_map, Nat.add_assoc]

theorem encEnum (J K : ℕ) : ∀ (I : ℕ),
    (cIndices I J K).map (fun t => enc J K t.1 t.2.1 t.2.2)
      = List.range (I * (J * K)) := by
  intro I
  induction I with
  | zero => simp [cIndices]
  | succ I ih =>
    unfold cIndices at ih ⊢
    rw [List.range_succ, List.flatMap_append, List.map_append, ih]
    rw [Nat.succ_mul, List.range_add]
    congr 1
    simp only [List.flatMap_cons, List.flatMap_nil, List.append_nil,
      List.map_flatMap, List.map_map]
    rw [← flatMap_map_const_add (I * (J * K)) J K]
    simp [enc, Function.comp_def, Nat.add_assoc]

theorem foldl_set_range (f : ℕ → ℚ) : ∀ (L : ℕ) (init : List ℚ),
    L ≤ init.length →
    (List.range L).foldl (fun a m => a.set m (f m)) init
      = ((List.range L).map f) ++ init.drop L := by
  intro L
  induction L with
  | zero => simp
  | succ L ih =>
    intro init hle
    rw [List.range_succ, List.foldl_append, List.map_append,
      ih init (Nat.le_of_succ_le hle)]
    have hlen : L < init.length := hle
    rw [List.foldl_cons, List.foldl_nil,
      List.set_append_right _ _ (by simp)]
    simp only [List.length_map, List.length_range, Nat.sub_self]
    rw [List.drop_eq_getElem_cons hlen, List.set_cons_zero, List.append_assoc]
    rfl

theorem map_getD_range (d : List ℚ) :
    (List.range d.length).map (fun m => d.getD m 0) = d := by
  apply List.ext_getElem (by simp)
  intro m h1 h2
  rw [List.getElem_map, List.getElem_range, List.getD_eq_getElem d 0 h2]

theorem runCmds_assigns (n : String) (f : ℕ → ℕ → ℕ → ℚ) :
    ∀ (ps : List (ℕ × ℕ × ℕ)) (st : MState) (I J K : ℕ) (init : List ℚ),
    lookupParm st.arrays n = some ⟨I, J, K, init⟩ →
    lookupParm (runCmds st (ps.map (fun t =>
        MCmd.assignElem n (t.1 + 1) (t.2.1 + 1) (t.2.2 + 1)
          (f t.1 t.2.1 t.2.2)))).arrays n
      = some ⟨I, J, K, ps.foldl (fun dd t =>
          dd.set (enc J K t.1 t.2.1 t.2.2) (f t.1 t.2.1 t.2.2)) init⟩ := by
  intro ps
  induction ps with
  | nil =>
    intro st I J K init h
    simpa [runCmds] using h
  | cons t ts ih =>
    intro st I J K init h
    rw [List.map_cons, List.foldl_cons]
    have h2 : lookupParm (applyCmd st (MCmd.assignElem n (t.1 + 1) (t.2.1 + 1)
        (t.2.2 + 1) (f t.1 t.2.1 t.2.2))).arrays n
        = some ⟨I, J, K, init.set (enc J K t.1 t.2.1 t.2.2) (f t.1 t.2.1 t.2.2)⟩ := by
      simp only [applyCmd]
      rw [h]
      simp [lookupParm_upsert, Nat.add_sub_cancel]
    show lookupParm (runCmds (applyCmd st _) _).arrays n = _
    rw [ih _ I J K _ h2]

theorem chainData_eq (d : List ℚ) (I J K : ℕ)
    (hlen : d.length = I * (J * K)) :
    (cIndices I J K).foldl
      (fun dd t => dd.set (enc J K t.1 t.2.1 t.2.2) (getC d J K t.1 t.2.1 t.2.2))
      (List.replicate (I * J * K) 0) = d := by
  have h1 : (cIndices I J K).foldl
      (fun dd t => dd.set (enc J K t.1 t.2.1 t.2.2) (getC d J K t.1 t.2.1 t.2.2))
      (List.replicate (I * J * K) 0)
      = ((cIndices I J K).map (fun t => enc J K t.1 t.2.1 t.2.2)).foldl
        (fun dd m => dd.set m (d.getD m 0)) (List.replicate (I * J * K) 0) := by
    rw [List.foldl_map]
    rfl
  rw [h1, encEnum J K I,
    foldl_set_range (fun m => d.getD m 0) (I * (J * K))
      (List.replicate (I * J * K) 0) (by simp [Nat.mul_assoc]),
    ← hlen, map_getD_range]
  simp [hlen, Nat.mul_assoc]

theorem chain_remote (st : MState) (n : String) (d : List ℚ) (I J K : ℕ)
    (hlen : d.length = I * (J * K)) :
    lookupParm (runCmds st (set_array_chain n d I J K)).arrays n
      = some ⟨I, J, K, d⟩ := by
  unfold set_array_chain
  show lookupParm (runCmds (applyCmd st (MCmd.dim n I J K)) _).arrays n = _
  have hdim : lookupParm (applyCmd st (MCmd.dim n I J K)).arrays n
      = some ⟨I, J, K, List.replicate (I * J * K) 0⟩ := by
    simp only [applyCmd]
    exact lookupParm_upsert _ n _
  rw [runCmds_assigns n (getC d J K) (cIndices I J K) _ I J K _ hdim,
    chainData_eq d I J K hlen]

theorem vread_ravelF (I J K : ℕ) (d : List ℚ)
    (hlen : d.length = I * (J * K)) :
    vreadIJK I J K (ravelF I J K d) = d := by
  rcases Nat.eq_zero_or_pos I with hI | hI
  · subst hI; simp at hlen; simp [vreadIJK, hlen]
  rcases Nat.eq_zero_or_pos J with hJ | hJ
  · subst hJ; simp at hlen; simp [vreadIJK, hlen]
  rcases Nat.eq_zero_or_pos K with hK | hK
  · subst hK; simp at hlen; simp [vreadIJK, hlen]
  apply List.ext_getElem (by simp [vreadIJK, hlen, Nat.mul_assoc])
  intro n h1 h2
  have hn : n < I * (J * K) := by rw [← hlen]; exact h2
  simp only [vreadIJK, List.getElem_map, List.getElem_range]
  have ha : n / (J * K) < I := (Nat.div_lt_iff_lt_mul (Nat.mul_pos hJ hK)).mpr hn
  have hb : (n / K) % J < J := Nat.mod_lt _ hJ
  have hc : n % K < K := Nat.mod_lt _ hK
  have hm : n / (J * K) + ((n / K) % J) * I + (n % K) * (I * J) < I * J * K := by
    calc n / (J * K) + ((n / K) % J) * I + (n % K) * (I * J)
        < I + ((n / K) % J) * I + (n % K) * (I * J) := by
          exact Nat.add_lt_add_right (Nat.add_lt_add_right ha _) _
      _ = (1 + (n / K) % J) * I + (n % K) * (I * J) := by ring
      _ ≤ J * I + (n % K) * (I * J) :=
          Nat.add_le_add_right (Nat.mul_le_mul_right I (by omega)) _
      _ = (1 + n % K) * (I * J) := by ring
      _ ≤ K * (I * J) := Nat.mul_le_mul_right (I * J) (by omega)
      _ = I * J * K := by ring
  have hmlen : n / (J * K) + ((n / K) % J) * I + (n % K) * (I * J)
      < (ravelF I J K d).length := by
    simpa [ravelF] using hm
  rw [List.getD_eq_getElem _ _ hmlen]
  simp only [ravelF, List.getElem_map, List.getElem_range]
  have hrepr : n / (J * K) + ((n / K) % J) * I + (n % K) * (I * J)
      = n / (J * K) + I * ((n / K) % J + J * (n % K)) := by ring
  have hmI : (n / (J * K) + ((n / K) % J) * I + (n % K) * (I * J)) % I
      = n / (J * K) := by
    rw [hrepr, Nat.add_mul_mod_self_left, Nat.mod_eq_of_lt ha]
  have hdiv : (n / (J * K) + ((n / K) % J) * I + (n % K) * (I * J)) / I
      = (n / K) % J + J * (n % K) := by
    rw [hrepr, Nat.add_mul_div_left _ _ hI, Nat.div_eq_of_lt ha, Nat.zero_add]
  have hb2 : ((n / (J * K) + ((n / K) % J) * I + (n % K) * (I * J)) / I) % J
      = (n / K) % J := by
    rw [hdiv, Nat.add_mul_mod_self_left, Nat.mod_eq_of_lt hb]
  have hc2 : (n / (J * K) + ((n / K) % J) * I + (n % K) * (I * J)) / (I * J)
      = n % K := by
    rw [← Nat.div_div_eq_div_mul, hdiv, Nat.add_mul_div_left _ _ hJ,
      Nat.div_eq_of_lt hb, Nat.zero_add]
  rw [hmI, hb2, hc2]
  have e1 := Nat.div_add_mod n K
  have e2 := Nat.div_add_mod (n / K) J
  have e3 : n / K / J = n / (J * K) := by
    rw [Nat.div_div_eq_div_mul, Nat.mul_comm]
  have hEnc : enc J K (n / (J * K)) ((n / K) % J) (n % K) = n := by
    unfold enc
    calc (n / (J * K)) * (J * K) + ((n / K) % J) * K + n % K
        = K * (J * (n / K / J) + (n / K) % J) + n % K := by rw [e3]; ring
      _ = K * (n / K) + n % K := by rw [e2]
      _ = n := e1
  unfold getC
  rw [hEnc]
  exact List.getD_eq_getElem _ _ h2

theorem file_remote (st : MState) (n : String) (d : List ℚ) (I J K : ℕ)
    (hlen : d.length = I * (J * K)) :
    lookupParm (runCmds st (set_array_file n d I J K)).arrays n
      = some ⟨I, J, K, d⟩ := by
  unfold set_array_file runCmds
  simp only [List.foldl_cons, List.foldl_nil, applyCmd, lookupParm_upsert]
  rw [vread_ravelF I J K d hlen]

/-- The `(idim, jdim, kdim)` triple computed by `_set_parameter_array`
(lines 539-543) from the buffer shape. -/
def dimsTriple (dims : List ℕ) : ℕ × ℕ × ℕ :=
  (dims.getD 0 0,
   if 2 ≤ dims.length then dims.getD 1 1 else 1,
   if dims.length = 3 then dims.getD 2 1 else 1)

theorem dimsTriple_prod (dims : List ℕ)
    (h : dims.length = 1 ∨ dims.length = 2 ∨ dims.length = 3) :
    dims.prod = (dimsTriple dims).1
      * ((dimsTriple dims).2.1 * (dimsTriple dims).2.2) := by
  rcases dims with _ | ⟨a, _ | ⟨b, _ | ⟨c, _ | ⟨e, t⟩⟩⟩⟩
  · simp at h
  · simp [dimsTriple]
  · simp [dimsTriple]
  · simp [dimsTriple]
  · simp at h

theorem roundtrip_core (st : MState) (n : String) (dims : List ℕ) (d : List ℚ)
    (I J K : ℕ)
    (hrank : dims.length = 1 ∨ dims.length = 2 ∨ dims.length = 3)
    (hlen : d.length = dims.prod)
    (hIJK : dimsTriple dims = (I, J, K)) :
    lookupParm (runCmds st (set_array_chain n d I J K)).arrays n
        = some ⟨I, J, K, d⟩ ∧
    lookupParm (runCmds st (set_array_file n d I J K)).arrays n
        = some ⟨I, J, K, d⟩ ∧
    get_parameter_array_vals (runCmds st (set_array_chain n d I J K)) n [I, J, K]
        = .ok (if K = 1 then [I, J] else [I, J, K], d) ∧
    get_parameter_array_vals (runCmds st (set_array_file n d I J K)) n [I, J, K]
        = .ok (if K = 1 then [I, J] else [I, J, K], d) := by
  have hprod : d.length = I * (J * K) := by
    rw [hlen, dimsTriple_prod dims hrank, hIJK]
  have h1 := chain_remote st n d I J K hprod
  have h2 := file_remote st n d I J K hprod
  have hread : reshape_and_squeeze d [I, J, K]
      = .ok (if K = 1 then [I, J] else [I, J, K], d) := by
    unfold reshape_and_squeeze
    rw [if_pos (by simp [hprod])]
    by_cases hK : K = 1 <;> simp [hK]
  refine ⟨h1, h2, ?_, ?_⟩
  · unfold get_parameter_array_vals mwriteVals
    rw [h1]
    exact hread
  · unfold get_parameter_array_vals mwriteVals
    rw [h2]
    exact hread

/-- C1: for every numeric buffer of rank 1, 2 or 3 with consistent length
and any store state, `_set_parameter_array` dispatches to the inline-chain
strategy below 1000 elements and the file strategy at or above it; each
strategy leaves the remote parameter holding exactly the buffer (C order,
declared shape `(I, J, K)`); reading back through the accepted-width response
and the reshape/squeeze tail returns the buffer element-for-element (exactly,
hence within double-precision tolerance) for both strategies; and the two
strategies leave identical remote contents for any common size. -/
theorem C1_array_write_read_roundtrip (st : MState) (n0 : String) (a : NDArray) (I J K : ℕ)
    (hnum : a.isNumeric = true)
    (hrank : a.ndim = 1 ∨ a.ndim = 2 ∨ a.ndim = 3)
    (hlen : a.data.length = a.dims.prod)
    (hIJK : dimsTriple a.dims = (I, J, K)) :
    (a.size < 1000 →
      set_parameter_array (.pystr n0) a
        = .ok (set_array_chain (pyUpper n0) a.qdata I J K)) ∧
    (¬ a.size < 1000 →
      set_parameter_array (.pystr n0) a
        = .ok (set_array_file (pyUpper n0) a.qdata I J K)) ∧
    lookupParm (runCmds st (set_array_chain (pyUpper n0) a.qdata I J K)).arrays
        (pyUpper n0) = some ⟨I, J, K, a.qdata⟩ ∧
    lookupParm (runCmds st (set_array_file (pyUpper n0) a.qdata I J K)).arrays
        (pyUpper n0) = some ⟨I, J, K, a.qdata⟩ ∧
    get_parameter_array_vals (runCmds st (set_array_chain (pyUpper n0) a.qdata I J K))
        (pyUpper n0) [I, J, K]
        = .ok (if K = 1 then [I, J] else [I, J, K], a.qdata) ∧
    get_parameter_array_vals (runCmds st (set_array_file (pyUpper n0) a.qdata I J K))
        (pyUpper n0) [I, J, K]
        = .ok (if K = 1 then [I, J] else [I, J, K], a.qdata) ∧
    lookupParm (runCmds st (set_array_chain (pyUpper n0) a.qdata I J K)).arrays
        (pyUpper n0)
      = lookupParm (runCmds st (set_array_file (pyUpper n0) a.qdata I J K)).arrays
        (pyUpper n0) := by
  have hqlen : a.qdata.length = a.dims.prod := by
    rw [← hlen]; simp [NDArray.qdata]
  have hprod : a.qdata.length = I * (J * K) := by
    rw [hqlen, dimsTriple_prod a.dims hrank, hIJK]
  have hI : a.dims.getD 0 0 = I := by
    have := congrArg Prod.fst hIJK; simpa [dimsTriple] using this
  have hJ : (if 2 ≤ a.ndim then a.dims.getD 1 1 else 1) = J := by
    have := congrArg (fun p => p.2.1) hIJK; simpa [dimsTriple, NDArray.ndim] using this
  have hK : (if a.ndim = 3 then a.dims.getD 2 1 else 1) = K := by
    have := congrArg (fun p => p.2.2) hIJK; simpa [dimsTriple, NDArray.ndim] using this
  have hranklt : ¬ 3 < a.ndim := by omega
  have hmain := roundtrip_core st (pyUpper n0) a.dims a.qdata I J K
    (by simpa [NDArray.ndim] using hrank) hqlen hIJK
  refine ⟨fun hsize => ?_, fun hsize => ?_, hmain.1, hmain.2.1, hmain.2.2.1,
    hmain.2.2.2, hmain.1.trans hmain.2.1.symm⟩
  · unfold set_parameter_array
    rw [hnum]
    simp only [Bool.not_true, Bool.false_eq_true, if_false, if_neg hranklt,
      if_pos hsize, hI, hJ, hK]
  · unfold set_parameter_array
    rw [hnum]
    simp only [Bool.not_true, Bool.false_eq_true, if_false, if_neg hranklt,
      if_neg hsize, hI, hJ, hK]

/-- A concrete 2×3 numeric buffer. -/
def arrEx : NDArray :=
  ⟨[2, 3], [.num 1, .num 2, .num 3, .num 4, .num 5, .num 6]⟩

/-- Witness for C1: a 2×3 buffer written by the chain strategy reads back
with squeezed shape `[2, 3]` and the original elements. -/
theorem C1_array_write_read_roundtrip_witness :
    get_parameter_array_vals
        (runCmds ⟨[], []⟩ (set_array_chain "MYARR" [1, 2, 3, 4, 5, 6] 2 3 1))
        "MYARR" [2, 3, 1]
      = .ok ([2, 3], [1, 2, 3, 4, 5, 6]) := by
  have h := (C1_array_write_read_roundtrip ⟨[], []⟩ "myarr" arrEx 2 3 1
    (by decide) (by decide) (by decide) (by decide)).2.2.2.2.1
  exact h

/-- C5: every invalid array-write attempt — non-numeric buffer, rank greater
than 3, non-string name, or name longer than 32 characters — is rejected with
a local error before any remote effect is issued: the command trace is empty
in every case. -/
theorem C5_array_write_validation_is_local (parm : List (String × PInfo)) :
    (∀ (key : PyKey) (a : NDArray), a.isNumeric = false →
        (∃ e, (setitem_cmds parm key (.arr a)).1 = .error e) ∧
        (setitem_cmds parm key (.arr a)).2 = []) ∧
    (∀ (key : PyKey) (a : NDArray), 3 < a.ndim →
        (∃ e, (setitem_cmds parm key (.arr a)).1 = .error e) ∧
        (setitem_cmds parm key (.arr a)).2 = []) ∧
    (∀ (a : NDArray),
        (∃ e, (setitem_cmds parm .nonString (.arr a)).1 = .error e) ∧
        (setitem_cmds parm .nonString (.arr a)).2 = []) ∧
    (∀ (n : String) (a : NDArray), 32 < n.length →
        (∃ e, (setitem_cmds parm (.pystr n) (.arr a)).1 = .error e) ∧
        (setitem_cmds parm (.pystr n) (.arr a)).2 = []) := by
  refine ⟨fun key a h => ?_, fun key a h => ?_, fun a => ?_, fun n a h => ?_⟩
  · cases hc : check_parameter_name key with
    | error e => simp [setitem_cmds, hc]
    | ok u => simp [setitem_cmds, hc, set_parameter_array, h]
  · by_cases hnum : a.isNumeric
    · cases hc : check_parameter_name key with
      | error e => simp [setitem_cmds, hc]
      | ok u => simp [setitem_cmds, hc, set_parameter_array, hnum, h]
    · cases hc : check_parameter_name key with
      | error e => simp [setitem_cmds, hc]
      | ok u =>
        simp [setitem_cmds, hc, set_parameter_array,
          Bool.eq_false_iff.mpr hnum]
  · simp [setitem_cmds, check_parameter_name]
  · simp [setitem_cmds, check_parameter_name, h]

/-- Is this effect the bare `*SET` that deletes a prior array value? -/
def isClearCmd : MCmd → Bool
  | .starsetDel _ => true
  | _ => false

/-- A `_parm` map in which `MYARR` already exists as an ARRAY parameter. -/
def parmArrEx : List (String × PInfo) :=
  [("MYARR", ⟨"ARRAY", none, some (3, 1, 1)⟩)]

/-- C6 counterexample: writing a numeric buffer under a name that already
exists as an ARRAY issues `*DIM` first and never issues a clearing `*SET` —
the claimed clear-before-dim does not happen on the array write path. -/
theorem C6_counterexample_array_write_does_not_clear :
    (setitem_cmds parmArrEx (.pystr "MYARR") (.arr ⟨[1], [.num 1]⟩)).2
        = [.dim "MYARR" 1 1 1, .assignElem "MYARR" 1 1 1 1] ∧
    ((setitem_cmds parmArrEx (.pystr "MYARR") (.arr ⟨[1], [.num 1]⟩)).2.all
        (fun c => !(isClearCmd c))) = true := by
  constructor
  · with_unfolding_all rfl
  · with_unfolding_all rfl

/-- Neither array-write strategy ever emits the clearing `*SET`. -/
theorem no_clear_in_array_trace (key : PyKey) (a : NDArray) (tr : List MCmd)
    (h : set_parameter_array key a = .ok tr) :
    tr.all (fun c => !(isClearCmd c)) = true := by
  unfold set_parameter_array at h
  by_cases h1 : (!a.isNumeric) = true
  · rw [if_pos h1] at h; cases h
  · rw [if_neg h1] at h
    by_cases h2 : 3 < a.ndim
    · rw [if_pos h2] at h; cases h
    · rw [if_neg h2] at h
      cases key with
      | nonString => cases h
      | pystr n0 =>
        dsimp only at h
        by_cases h3 : a.size < 1000
        · rw [if_pos h3] at h
          cases h
          simp only [set_array_chain, List.all_cons, isClearCmd,
            Bool.not_false, Bool.true_and, List.all_eq_true]
          intro c hc
          rcases List.mem_map.mp hc with ⟨t, _, rfl⟩
          rfl
        · rw [if_neg h3] at h
          cases h
          rfl

/-- C6 (amended): the clear-before-write of a prior ARRAY value happens only
on the scalar write path — `_set_parameter` issues the bare `*SET` before the
assignment — while a numeric-buffer write declares its dimensions directly
and never issues a clear, in either strategy. -/
theorem C6_clear_only_on_scalar_write (parm : List (String × PInfo)) (n : String) (q : ℚ)
    (info : PInfo) (key : PyKey) (a : NDArray)
    (hlen : ¬ 32 < n.length)
    (hl : lookupParm parm n = some info) (ht : info.ptype = "ARRAY") :
    set_parameter parm (.pystr n) (.num q)
      = (.ok (), [.starsetDel n, .starsetVal n (.num q)]) ∧
    ((setitem_cmds parm key (.arr a)).2.all (fun c => !(isClearCmd c))) = true := by
  constructor
  · unfold set_parameter
    dsimp only
    rw [if_neg hlen, hl]
    dsimp only
    rw [if_pos ht]
    rfl
  · unfold setitem_cmds
    cases hc : check_parameter_name key with
    | error e => rfl
    | ok u =>
      dsimp only
      cases hsa : set_parameter_array key a with
      | error e => rfl
      | ok tr => exact no_clear_in_array_trace key a tr hsa

/-- Witness for C5: a non-numeric 1-element buffer write issues no effect. -/
theorem C5_array_write_validation_is_local_witness :
    (setitem_cmds [] (.pystr "A") (.arr ⟨[1], [.str "x"]⟩)).2 = [] :=
  ((C5_array_write_validation_is_local []).1 (.pystr "A") ⟨[1], [.str "x"]⟩ rfl).2

/-- Witness for C6 (amended): a scalar write over the existing ARRAY `MYARR`
issues the clearing `*SET` then the assignment. -/
theorem C6_clear_only_on_scalar_write_witness :
    set_parameter parmArrEx (.pystr "MYARR") (.num 5)
      = (.ok (), [.starsetDel "MYARR", .starsetVal "MYARR" (.num 5)]) :=
  (C6_clear_only_on_scalar_write parmArrEx "MYARR" 5 ⟨"ARRAY", none, some (3, 1, 1)⟩
    (.pystr "X") ⟨[1], [.num 1]⟩ (by decide) (by decide) rfl).1

/-- The Fortran format tag `(1F<n>.12)` probed at width `n` (line 452). -/
def formatTag (n : ℕ) : String := "(1F" ++ toString n ++ ".12)"

/-- The `st` computation of line 458: one past the end of the last occurrence
of the format tag (Python `rfind` yields -1 when absent, so `st` degenerates
to the tag length). -/
def postTagIndex (resp fmt : String) : ℕ :=
  match strRFind resp fmt with
  | some i => i + fmt.length + 1
  | none => fmt.length

/-- The fixed ascending candidate field widths of line 451. -/
def widthCandidates : List ℕ := [20, 30, 40, 64, 100]

/-- The width loop of `_get_parameter_array` (lines 450-462): probe the
widths in order and accept the first whose post-tag substring holds no `"**"`
overflow marker, returning the width and `st`; `none` is the fall-through
with `escaped` still false.  `resp w` is `last_response` after probing
width `w`. -/
def negotiateWidth (resp : ℕ → String) : List ℕ → Option (ℕ × ℕ)
  | [] => none
  | w :: rest =>
    if containsSub (pyDropChars (resp w) (postTagIndex (resp w) (formatTag w)))
        "**" then
      negotiateWidth resp rest
    else some (w, postTagIndex (resp w) (formatTag w))

/-- `_get_parameter_array` at the text level (lines 450-470): the width
negotiation followed by the fatal cannot-format `RuntimeError`, or the parse
input — exactly the post-tag substring of the accepted response. -/
def get_parameter_array_text (resp : ℕ → String) (parm_name : String) :
    Except PyExc String :=
  match negotiateWidth resp widthCandidates with
  | none => .error (.runtimeError ("The array " ++ parm_name ++
      " has a number format that could not be read using the candidate formats."))
  | some p => .ok (pyDropChars (resp p.1) p.2)

/-- The loop accepts precisely the first width whose post-tag substring is
marker-free. -/
theorem negotiate_eq_find (resp : ℕ → String) : ∀ ws : List ℕ,
    negotiateWidth resp ws
      = (ws.find? (fun w => !containsSub (pyDropChars (resp w)
          (postTagIndex (resp w) (formatTag w))) "**")).map
        (fun w => (w, postTagIndex (resp w) (formatTag w))) := by
  intro ws
  induction ws with
  | nil => rfl
  | cons w rest ih =>
    by_cases h : containsSub (pyDropChars (resp w)
        (postTagIndex (resp w) (formatTag w))) "**"
    · rw [show negotiateWidth resp (w :: rest) = negotiateWidth resp rest by
        simp [negotiateWidth, h], ih,
        List.find?_cons_of_neg _ (by simp [h])]
    · rw [show negotiateWidth resp (w :: rest)
          = some (w, postTagIndex (resp w) (formatTag w)) by
        simp [negotiateWidth, h],
        List.find?_cons_of_pos _ (by simp [h])]
      rfl

/-- Simulated responses: widths 20 and 30 show the overflow marker after the
tag; width 40 is clean after the tag although markers occur before it. -/
def respEx : ℕ → String := fun w =>
  if w = 20 then "MWRITE\n(1F20.12)\n ********\n"
  else if w = 30 then "MWRITE\n(1F30.12)\n ********\n"
  else if w = 40 then "** header **\n(1F40.12)\n 1.500000000000\n"
  else ""

/-- C2: the negotiator tries field widths in exactly the ascending order
20, 30, 40, 64, 100, checking the overflow marker only in the substring after
the last occurrence of that width's format tag; it accepts the first clean
width and parses only that substring; if all five widths show the marker it
raises the fatal cannot-format error; and on a response where widths 20 and
30 show the marker and width 40 does not, width 40 is selected even though a
marker occurs before its tag. -/
theorem C2_format_escalation_order :
    (∀ (resp : ℕ → String),
      negotiateWidth resp widthCandidates
        = (widthCandidates.find? (fun w => !containsSub (pyDropChars (resp w)
            (postTagIndex (resp w) (formatTag w))) "**")).map
          (fun w => (w, postTagIndex (resp w) (formatTag w)))) ∧
    (∀ (resp : ℕ → String),
      (∀ w ∈ widthCandidates, containsSub (pyDropChars (resp w)
          (postTagIndex (resp w) (formatTag w))) "**" = true) →
      ∀ name, get_parameter_array_text resp name
        = .error (.runtimeError ("The array " ++ name ++
            " has a number format that could not be read using the candidate formats."))) ∧
    negotiateWidth respEx widthCandidates = some (40, 23) ∧
    get_parameter_array_text respEx "ARR" = .ok " 1.500000000000\n" := by
  refine ⟨fun resp => negotiate_eq_find resp widthCandidates,
    fun resp hall name => ?_, ?_, ?_⟩
  · unfold get_parameter_array_text
    rw [negotiate_eq_find resp widthCandidates,
      List.find?_eq_none.mpr (fun w hw => by simp [hall w hw])]
    rfl
  · with_unfolding_all rfl
  · with_unfolding_all rfl

/-- Responses in which every width's post-tag substring shows the marker. -/
def respAllMarked : ℕ → String := fun w => formatTag w ++ "\n ********"

/-- Witness for C2: with every width marked, the fatal error is raised. -/
theorem C2_format_escalation_order_witness :
    get_parameter_array_text respAllMarked "A"
      = .error (.runtimeError ("The array A has a number format" ++
          " that could not be read using the candidate formats.")) := by
  have h := C2_format_escalation_order.2.1 respAllMarked (by decide) "A"
  exact h

/-- The piece of MAPDL session state touched by `supress_logging`. -/
structure LogState where
  level : String
deriving DecidableEq, Repr

/-- `supress_logging` (misc.py lines 180-197): save the prior level, force
CRITICAL when not already there, run the wrapped function, then restore the
prior level — but only on the normal return path; there is no try/finally,
so a raised exception skips the restore. -/
def supress_logging {α : Type} (func : LogState → Except PyExc α × LogState)
    (s : LogState) : Except PyExc α × LogState :=
  let prior := s.level
  let s1 := if prior ≠ "CRITICAL" then { s with level := "CRITICAL" } else s
  match func s1 with
  | (.ok out, s2) =>
    (.ok out, if prior ≠ "CRITICAL" then { s2 with level := prior } else s2)
  | (.error e, s2) => (.error e, s2)

/-- C10: through a `supress_logging`-wrapped call whose prior level is not
CRITICAL (and whose wrapped body does not itself change the level), a normal
return restores the prior log level, while an exception leaves the level at
CRITICAL — the decorator performs no restore on the exception path. -/
theorem C10_log_level_left_critical_on_exception {α : Type} (func : LogState → Except PyExc α × LogState)
    (s : LogState)
    (hfunc : ∀ t, (func t).2.level = t.level)
    (hprior : s.level ≠ "CRITICAL") :
    ((∃ v, (func ⟨"CRITICAL"⟩).1 = .ok v) →
        (supress_logging func s).2.level = s.level) ∧
    ((∃ e, (func ⟨"CRITICAL"⟩).1 = .error e) →
        (supress_logging func s).2.level = "CRITICAL") := by
  unfold supress_logging
  dsimp only
  rw [if_pos hprior]
  rcases hf : func ⟨"CRITICAL"⟩ with ⟨r, s2⟩
  have hlvl : s2.level = "CRITICAL" := by
    have := hfunc ⟨"CRITICAL"⟩
    rw [hf] at this
    exact this
  cases r with
  | ok v =>
    refine ⟨fun _ => ?_, fun he => ?_⟩
    · dsimp only
      rw [if_pos hprior]
    · rcases he with ⟨e, he⟩
      simp at he
  | error e =>
    refine ⟨fun hv => ?_, fun _ => hlvl⟩
    rcases hv with ⟨v, hv⟩
    simp at hv

/-- Witness for C10: a raising body leaves an INFO-level session at
CRITICAL. -/
theorem C10_log_level_left_critical_on_exception_witness :
    (supress_logging
        (fun t => ((.error (.valueError "boom") : Except PyExc Unit), t))
        ⟨"INFO"⟩).2.level = "CRITICAL" :=
  (C10_log_level_left_critical_on_exception (fun t => ((.error (.valueError "boom") : Except PyExc Unit), t))
    ⟨"INFO"⟩ (fun t => rfl) (by decide)).2 ⟨.valueError "boom", rfl⟩

end PyMapdl
